import Mathlib

/-!
Shallow embedding of the GeminiChat bounded conversation history manager
(`src/chat_memory.py` and the `POST /chat` handler of `src/main.py`).

Modelling conventions:
- A persisted record (a Redis list entry, produced by `json.dumps` and read
  back by `json.loads`) is modelled at the level of its parsed JSON value
  (`Json` below); `json.dumps`/`json.loads` round-trip faithfully, so working
  on parsed values is equivalent to working on the strings.
- A Python function that can raise is modelled with `Option`/an explicit
  error constructor; `None`-able connection state (`R is None`) is a
  `connected : Bool` parameter; the Redis list for one session is a
  `List Json` threaded explicitly (oldest first, as LRANGE 0 -1 returns it).
- The Gemini client (`client.models.generate_content`) is an abstract
  collaborator: a function from the submitted contents to either a response
  text or a failure.
-/

namespace GeminiChat

/-- Parsed JSON values: the durable representation of one history record. -/
inductive Json where
  | null : Json
  | bool (b : Bool) : Json
  | num (n : Int) : Json
  | str (s : String) : Json
  | arr (elems : List Json) : Json
  | obj (fields : List (String × Json)) : Json

/-- `google.genai.types.Part`: the text may be absent (`None`). -/
structure Part where
  text : Option String
deriving DecidableEq

/-- `google.genai.types.Content`: a role string plus a list of parts. -/
structure Content where
  role : String
  parts : List Part
deriving DecidableEq

/-- `MAX_MESSAGES = 20` in `chat_memory.py`. -/
def MAX_MESSAGES : Nat := 20

/-- `content.parts[0].text if content.parts and content.parts[0].text else ""`:
the text of the first part, with an empty parts list or an absent (`None`)
text collapsing to `""` (an empty-string text is falsy in Python and also
yields `""`, the same value). -/
def firstPartText (c : Content) : String :=
  match c.parts with
  | [] => ""
  | p :: _ =>
    match p.text with
    | none => ""
    | some t => t

/-- Body of the `serialize_content` loop: one `Content` becomes the JSON
object `\x7b"role": role, "parts": [\x7b"text": text\x7d]\x7d`. -/
def serializeOne (c : Content) : Json :=
  Json.obj [("role", Json.str c.role),
            ("parts", Json.arr [Json.obj [("text", Json.str (firstPartText c))]])]

/-- `serialize_content`: serialize each content in order. -/
def serialize_content (contents : List Content) : List Json :=
  contents.map serializeOne

/-- Key lookup in a JSON object (`data["role"]` etc.); `none` models the
`KeyError` / `TypeError` raised when the key is missing. -/
def lookupField : List (String × Json) → String → Option Json
  | [], _ => none
  | (k, v) :: rest, key => if k = key then some v else lookupField rest key

/-- `types.Part(text=part["text"])` for one element of `data["parts"]`:
the element must be an object carrying a `"text"` key whose value is a
string or `null` (pydantic rejects non-string, non-null text; a missing
key raises `KeyError`). -/
def decodePart (j : Json) : Option Part :=
  match j with
  | Json.obj fields =>
    match lookupField fields "text" with
    | some (Json.str s) => some { text := some s }
    | some Json.null => some { text := none }
    | _ => none
  | _ => none

/-- The list comprehension over `data["parts"]`: any failing element makes
the whole record fail. -/
def decodeParts : List Json → Option (List Part)
  | [] => some []
  | j :: rest =>
    match decodePart j, decodeParts rest with
    | some p, some ps => some (p :: ps)
    | _, _ => none

/-- Body of the `deserialize_content` loop: one persisted record back to a
`Content`. Fails (`none` ~ a raised exception) when the record is not an
object, lacks a string `"role"`, lacks an array `"parts"`, or some part is
malformed. Note: the role value is NOT checked against any recognized set.
Restriction relative to the source: pydantic `Content.role` is
`Optional[str]`, so the real decoder also accepts a `null` role, and a
`"parts"` value that is an empty string or empty object iterates to zero
parts; every record produced by `serialize_content` carries a string role
and an array `"parts"`, which is the domain this definition covers. The
decoder faithful on the full JSON domain is `pyDeserializeOne` below. -/
def deserializeOne (j : Json) : Option Content :=
  match j with
  | Json.obj fields =>
    match lookupField fields "role", lookupField fields "parts" with
    | some (Json.str r), some (Json.arr ps) =>
      match decodeParts ps with
      | some parts => some { role := r, parts := parts }
      | none => none
    | _, _ => none
  | _ => none

/-- `deserialize_content`: decode each record in order; the loop raises on
the first malformed record, so one bad record fails the whole call. -/
def deserialize_content : List Json → Option (List Content)
  | [] => some []
  | j :: rest =>
    match deserializeOne j, deserialize_content rest with
    | some c, some cs => some (c :: cs)
    | _, _ => none

/-- Redis `LTRIM key -MAX_MESSAGES -1` semantics on the full list: keep only
the last `n` entries (everything if the list is shorter). -/
def ltrimLast (n : Nat) (l : List Json) : List Json :=
  l.drop (l.length - n)

/-- The fixed `Content(role="user", parts=[types.Part(text=new_prompt)])`. -/
def userContent (text : String) : Content :=
  { role := "user", parts := [{ text := some text }] }

/-- The model-response content appended after a successful gateway call. -/
def modelContent (text : String) : Content :=
  { role := "model", parts := [{ text := some text }] }

/-- Result of `client.models.generate_content`: generated text or a raised
exception with some detail. -/
inductive GatewayResult where
  | success (text : String) : GatewayResult
  | failure (detail : String) : GatewayResult

/-- Outcome channel of `send_message_with_history`: a returned string
(`degraded` and `ok` both return through the normal string channel) or a
propagated exception (`decodeError` from `deserialize_content`,
`gatewayError` re-raised from the API call). -/
inductive SendResult where
  | degraded (msg : String) : SendResult
  | decodeError : SendResult
  | gatewayError (detail : String) : SendResult
  | ok (text : String) : SendResult
deriving DecidableEq

/-- Full observable outcome of one `send_message_with_history` call:
its result, the session log after the call, whether the gateway was
invoked, and the contents submitted to it (when it was). -/
structure SendOutcome where
  result : SendResult
  log : List Json
  gatewayCalled : Bool
  submitted : Option (List Content)

/-- The string returned when `R is None`. -/
def degradedMessage : String :=
  "Erro de Serviço: O banco de dados Redis não está acessível."

/-- `send_message_with_history(session_id, client, new_prompt)` from
`chat_memory.py`, for one session's log. `connected` models `R is not None`;
`gateway` models the Gemini call. Steps: degraded check, LRANGE + decode,
role filter to user/model, payload build, gateway call, and on success an
atomic RPUSH of the serialized exchange followed by LTRIM to the last
`MAX_MESSAGES` entries. -/
def send_message_with_history (connected : Bool) (log : List Json)
    (gateway : List Content → GatewayResult) (new_prompt : String) : SendOutcome :=
  match connected with
  | false =>
    { result := SendResult.degraded degradedMessage, log := log,
      gatewayCalled := false, submitted := none }
  | true =>
    match deserialize_content log with
    | none =>
      { result := SendResult.decodeError, log := log,
        gatewayCalled := false, submitted := none }
    | some history =>
      let filtered := history.filter (fun item => item.role == "user" || item.role == "model")
      let contents_to_send := filtered ++ [userContent new_prompt]
      match gateway contents_to_send with
      | GatewayResult.failure detail =>
        { result := SendResult.gatewayError detail, log := log,
          gatewayCalled := true, submitted := some contents_to_send }
      | GatewayResult.success response_text =>
        { result := SendResult.ok response_text,
          log := ltrimLast MAX_MESSAGES
            (log ++ serialize_content [userContent new_prompt, modelContent response_text]),
          gatewayCalled := true, submitted := some contents_to_send }

/-- `reset_chat_session`: returns `false` without touching the store when
`R is None`; otherwise `DEL` the key and report whether anything was deleted
(an empty Redis list means the key does not exist, so `deleted_count > 0`
iff the log was non-empty). Returns the flag plus the store state after. -/
def reset_chat_session (connected : Bool) (log : List Json) : Bool × List Json :=
  match connected with
  | false => (false, log)
  | true => (!log.isEmpty, [])

/-- One entry of the front-end history: `\x7b"role": ..., "text": ...\x7d`. -/
structure FormattedMessage where
  role : String
  text : String
deriving DecidableEq

/-- `get_chat_history_from_redis`: the degraded-mode sentinel when
`R is None`; otherwise LRANGE + decode (`none` models the decode exception
propagating), then skip `system`-role entries and project to role/text. -/
def get_chat_history_from_redis (connected : Bool) (log : List Json) :
    Option (List FormattedMessage) :=
  match connected with
  | false => some [{ role := "system", text := "Erro: Redis não está conectado." }]
  | true =>
    match deserialize_content log with
    | none => none
    | some history_content =>
      some (history_content.filterMap (fun content =>
        if content.role = "system" then none
        else some { role := content.role, text := firstPartText content }))

/-- `list1.isPrefixOf`-style check written out structurally: does the first
list start the second? Models Python `str.startswith` character by
character. -/
def charsStartWith : List Char → List Char → Bool
  | [], _ => true
  | _ :: _, [] => false
  | p :: ps, c :: cs => p == c && charsStartWith ps cs

/-- Python `s.startswith(pre)`. -/
def pyStartsWith (s pre : String) : Bool :=
  charsStartWith pre.data s.data

/-- Transport-level outcome of the `POST /chat` handler: a success body or
an `HTTPException` with a status code and detail. -/
inductive HttpOutcome where
  | ok (session_id : String) (resposta_ia : String) : HttpOutcome
  | httpError (status : Nat) (detail : String) : HttpOutcome
deriving DecidableEq

/-- `chat_with_gemini` from `main.py`, specialized to one session's log.
`clientOk` models `client is not None`. Empty fields give 400; the returned
string (the normal channel of `send_message_with_history`, used both for
the Gemini answer and for the degraded-mode message) is classified as a
failure when it starts with `"Erro"` and mapped to a 500; a propagated
exception from the memory layer gives the generic 500. Returns the HTTP
outcome together with the store state after the call. -/
def chat_with_gemini (clientOk : Bool) (connected : Bool) (log : List Json)
    (gateway : List Content → GatewayResult)
    (pergunta_cliente session_id : String) : HttpOutcome × List Json :=
  match clientOk with
  | false =>
    (HttpOutcome.httpError 500 "Erro de configuração: O serviço Gemini não pôde ser inicializado.", log)
  | true =>
    if pergunta_cliente = "" ∨ session_id = "" then
      (HttpOutcome.httpError 400 "A pergunta e o ID da sessão não podem estar vazios.", log)
    else
      let out := send_message_with_history connected log gateway pergunta_cliente
      match out.result with
      | SendResult.ok resposta_gemini =>
        if pyStartsWith resposta_gemini "Erro" then
          (HttpOutcome.httpError 500 resposta_gemini, out.log)
        else
          (HttpOutcome.ok session_id resposta_gemini, out.log)
      | SendResult.degraded resposta_gemini =>
        if pyStartsWith resposta_gemini "Erro" then
          (HttpOutcome.httpError 500 resposta_gemini, out.log)
        else
          (HttpOutcome.ok session_id resposta_gemini, out.log)
      | SendResult.decodeError =>
        (HttpOutcome.httpError 500 "Ocorreu um erro interno no servidor durante a comunicação.", out.log)
      | SendResult.gatewayError _ =>
        (HttpOutcome.httpError 500 "Ocorreu um erro interno no servidor durante a comunicação.", out.log)

/-- One `send_message_with_history` call per element: each call supplies a
gateway behaviour and a prompt, and the store is threaded through. -/
def runSends (calls : List ((List Content → GatewayResult) × String)) : List Json :=
  calls.foldl (fun log call => (send_message_with_history true log call.1 call.2).log) []

/-- Well-formedness of one element of `data["parts"]`: an object whose
`"text"` key holds a string or `null`. This is exactly the domain on which
`decodePart` succeeds. -/
def WFPart (j : Json) : Bool :=
  match j with
  | Json.obj fields =>
    match lookupField fields "text" with
    | some (Json.str _) => true
    | some Json.null => true
    | _ => false
  | _ => false

/-- pydantic `Content` exactly as the decoder constructs it:
`Content.role` is `Optional[str]`, so a record with `"role": null` builds
a content whose role is `None`. (Every record written by this program has
a string role, which is why the rest of the embedding uses `Content` with
a plain string role; this type exists to characterize the decoder on the
full JSON domain.) -/
structure PyContent where
  role : Option String
  parts : List Part
deriving DecidableEq

/-- The value `data["role"]` as pydantic accepts it for `Optional[str]`:
a string or `null` validate (no coercion from numbers, booleans, arrays
or objects in smart mode — those raise `ValidationError`). -/
def pyDecodeRole (j : Json) : Option (Option String) :=
  match j with
  | Json.str s => some (some s)
  | Json.null => some none
  | _ => none

/-- The comprehension `[types.Part(text=part["text"]) for part in
data["parts"]]` over an arbitrary JSON value: an array iterates its
elements (each decoded by `decodePart`); a string iterates its characters
and an object its keys, so only the empty ones survive (a character or a
key is a string, and `part["text"]` on a string raises `TypeError`);
``null``, booleans and numbers are not iterable and raise `TypeError`. -/
def pyDecodeParts (j : Json) : Option (List Part) :=
  match j with
  | Json.arr ps => decodeParts ps
  | Json.str s => if s = "" then some [] else none
  | Json.obj fields =>
    match fields with
    | [] => some []
    | _ => none
  | _ => none

/-- The per-record decode of `deserialize_content`, faithful on the full
JSON domain: the record must be an object (indexing anything else with
`"role"` raises), both the `"role"` and `"parts"` keys must be present
(`KeyError` otherwise), the role value must be a string or `null`, and the
parts value must iterate to valid parts. -/
def pyDeserializeOne (j : Json) : Option PyContent :=
  match j with
  | Json.obj fields =>
    match lookupField fields "role", lookupField fields "parts" with
    | some rj, some pj =>
      match pyDecodeRole rj, pyDecodeParts pj with
      | some r, some parts => some { role := r, parts := parts }
      | _, _ => none
    | _, _ => none
  | _ => none

/-- Well-formedness of the `"role"` value: a string or `null`. -/
def WFRole (j : Json) : Bool :=
  match j with
  | Json.str _ => true
  | Json.null => true
  | _ => false

/-- Well-formedness of the `"parts"` value: an array of well-formed parts,
or one of the two empty iterables (empty string, empty object) that the
comprehension turns into an empty parts list. -/
def WFParts (j : Json) : Bool :=
  match j with
  | Json.arr ps => ps.all WFPart
  | Json.str s => s == ""
  | Json.obj fields => fields.isEmpty
  | _ => false

/-- Well-formedness of one persisted record: an object carrying both a
`"role"` key with a string-or-null value and a `"parts"` key with a value
iterating to valid parts. No restriction on the role string. -/
def PyWFRecord (j : Json) : Bool :=
  match j with
  | Json.obj fields =>
    (match lookupField fields "role" with
      | some rj => WFRole rj
      | none => false)
    && (match lookupField fields "parts" with
      | some pj => WFParts pj
      | none => false)
  | _ => false

/-- A session log sitting exactly at the `MAX_MESSAGES` bound. -/
def fullLog20 : List Json :=
  List.replicate MAX_MESSAGES (serializeOne (userContent "x"))

/-- A stored content whose role is none of user/model/system. -/
def weirdContent : Content :=
  { role := "weird", parts := [{ text := some "z" }] }

/-- A gateway whose successful answer happens to start with `"Erro"`. -/
def erroGateway : List Content → GatewayResult :=
  fun _ => GatewayResult.success "Erro simulado pelo modelo."

/-! Helper lemmas. -/

theorem length_ltrimLast (n : Nat) (l : List Json) :
    (ltrimLast n l).length = l.length - (l.length - n) := by
  simp [ltrimLast]

/-- A `send_message_with_history` call against a reachable store either
leaves the log unchanged or appends one serialized exchange and trims. -/
theorem send_log_cases (log : List Json) (gw : List Content → GatewayResult) (p : String) :
    (send_message_with_history true log gw p).log = log ∨
    ∃ t, (send_message_with_history true log gw p).log
      = ltrimLast MAX_MESSAGES (log ++ serialize_content [userContent p, modelContent t]) := by
  simp only [send_message_with_history]
  split
  · exact Or.inl rfl
  · split
    · exact Or.inl rfl
    · exact Or.inr ⟨_, rfl⟩

theorem send_preserves_bound (log : List Json) (gw : List Content → GatewayResult) (p : String)
    (h1 : log.length ≤ MAX_MESSAGES) (h2 : 2 ∣ log.length) :
    (send_message_with_history true log gw p).log.length ≤ MAX_MESSAGES ∧
      2 ∣ (send_message_with_history true log gw p).log.length := by
  rcases send_log_cases log gw p with h | ⟨t, h⟩
  · rw [h]; exact ⟨h1, h2⟩
  · rw [h, length_ltrimLast]
    have hl : (log ++ serialize_content [userContent p, modelContent t]).length
        = log.length + 2 := by
      simp [serialize_content]
    rw [hl]
    unfold MAX_MESSAGES at h1 ⊢
    omega

theorem runSends_inv (calls : List ((List Content → GatewayResult) × String)) (log : List Json)
    (h1 : log.length ≤ MAX_MESSAGES) (h2 : 2 ∣ log.length) :
    (calls.foldl (fun log call => (send_message_with_history true log call.1 call.2).log)
        log).length ≤ MAX_MESSAGES ∧
      2 ∣ (calls.foldl (fun log call => (send_message_with_history true log call.1 call.2).log)
        log).length := by
  induction calls generalizing log with
  | nil => exact ⟨h1, h2⟩
  | cons c rest ih =>
    simp only [List.foldl_cons]
    obtain ⟨h1', h2'⟩ := send_preserves_bound log c.1 c.2 h1 h2
    exact ih _ h1' h2'

/-- Complete case analysis of one `send_message_with_history` call against
a reachable store: decode failure, gateway failure, or success, each with
the full outcome record. -/
theorem send_total (log : List Json) (gw : List Content → GatewayResult) (p : String) :
    (deserialize_content log = none ∧
      send_message_with_history true log gw p
        = { result := SendResult.decodeError, log := log,
            gatewayCalled := false, submitted := none })
    ∨ ∃ hist, deserialize_content log = some hist ∧
        ((∃ d, gw (hist.filter (fun item => item.role == "user" || item.role == "model")
              ++ [userContent p]) = GatewayResult.failure d ∧
          send_message_with_history true log gw p
            = { result := SendResult.gatewayError d, log := log, gatewayCalled := true,
                submitted := some (hist.filter
                  (fun item => item.role == "user" || item.role == "model")
                  ++ [userContent p]) })
        ∨ (∃ t, gw (hist.filter (fun item => item.role == "user" || item.role == "model")
              ++ [userContent p]) = GatewayResult.success t ∧
          send_message_with_history true log gw p
            = { result := SendResult.ok t,
                log := ltrimLast MAX_MESSAGES
                  (log ++ serialize_content [userContent p, modelContent t]),
                gatewayCalled := true,
                submitted := some (hist.filter
                  (fun item => item.role == "user" || item.role == "model")
                  ++ [userContent p]) })) := by
  cases hdes : deserialize_content log with
  | none =>
    exact Or.inl ⟨rfl, by simp only [send_message_with_history, hdes]⟩
  | some hist =>
    refine Or.inr ⟨hist, rfl, ?_⟩
    cases hgw : gw (hist.filter (fun item => item.role == "user" || item.role == "model")
        ++ [userContent p]) with
    | failure d =>
      exact Or.inl ⟨d, rfl, by simp only [send_message_with_history, hdes, hgw]⟩
    | success t =>
      exact Or.inr ⟨t, rfl, by simp only [send_message_with_history, hdes, hgw]⟩

theorem deserializeOne_serializeOne (c : Content) (t : String)
    (h : c.parts = [{ text := some t }]) :
    deserializeOne (serializeOne c) = some c := by
  obtain ⟨r, parts⟩ := c
  have h' : parts = [{ text := some t }] := h
  subst h'
  rfl

theorem decodePart_isSome (j : Json) : (decodePart j).isSome = WFPart j := by
  cases j with
  | null => rfl
  | bool b => rfl
  | num n => rfl
  | str s => rfl
  | arr elems => rfl
  | obj fields =>
    simp only [decodePart, WFPart]
    cases h : lookupField fields "text" with
    | none => rfl
    | some v => cases v <;> rfl

theorem decodeParts_isSome (ps : List Json) : (decodeParts ps).isSome = ps.all WFPart := by
  induction ps with
  | nil => rfl
  | cons j rest ih =>
    simp only [decodeParts, List.all_cons]
    have hj := decodePart_isSome j
    cases h1 : decodePart j with
    | none =>
      rw [h1] at hj
      cases h2 : decodeParts rest <;> simp [← hj]
    | some p =>
      rw [h1] at hj
      cases h2 : decodeParts rest with
      | none =>
        rw [h2] at ih
        simp [← hj, ← ih]
      | some ps' =>
        rw [h2] at ih
        simp [← hj, ← ih]

theorem pyDecodeRole_isSome (j : Json) : (pyDecodeRole j).isSome = WFRole j := by
  cases j <;> rfl

theorem pyDecodeParts_isSome (j : Json) : (pyDecodeParts j).isSome = WFParts j := by
  cases j with
  | arr ps => exact decodeParts_isSome ps
  | str s =>
    simp only [pyDecodeParts, WFParts]
    by_cases h : s = ""
    · simp [h]
    · simp [h]
  | obj fields => cases fields <;> rfl
  | null => rfl
  | bool b => rfl
  | num n => rfl

theorem get_history_shape (log : List Json) (hist : List Content)
    (hdes : deserialize_content log = some hist) :
    get_chat_history_from_redis true log
      = some (hist.filterMap (fun content =>
          if content.role = "system" then none
          else some { role := content.role, text := firstPartText content })) := by
  simp only [get_chat_history_from_redis, hdes]

theorem submitted_shape (log : List Json) (hist : List Content)
    (hdes : deserialize_content log = some hist)
    (gw : List Content → GatewayResult) (p : String) :
    (send_message_with_history true log gw p).submitted
      = some (hist.filter (fun item => item.role == "user" || item.role == "model")
          ++ [userContent p]) := by
  simp only [send_message_with_history, hdes]
  split <;> rfl

theorem payload_no_system (history : List Content) (p : String) :
    ((history.filter (fun item => item.role == "user" || item.role == "model"))
        ++ [userContent p]).all (fun c => c.role != "system") = true := by
  rw [List.all_append]
  rw [Bool.and_eq_true]
  constructor
  · rw [List.all_eq_true]
    intro c hc
    rw [List.mem_filter] at hc
    obtain ⟨-, hrole⟩ := hc
    simp only [Bool.or_eq_true, beq_iff_eq] at hrole
    rcases hrole with h | h
    · rw [h]; rfl
    · rw [h]; rfl
  · rfl

/-! Claim theorems. -/

/-- Claim C1: starting from an empty session log, after any number of
`send_message_with_history` calls (each with an arbitrary gateway
behaviour, so in particular after any number of successful calls) the
session log read over its full range has length at most
`MAX_MESSAGES = 20` and that length is even: exchanges are appended in
user/model pairs and the log is trimmed to the last 20 entries. -/
theorem c1_bound_invariant (calls : List ((List Content → GatewayResult) × String)) :
    (runSends calls).length ≤ MAX_MESSAGES ∧ 2 ∣ (runSends calls).length :=
  runSends_inv calls [] (by simp [MAX_MESSAGES]) (by simp)

/-- Claim C2: if the gateway call made inside `send_message_with_history`
fails (the outcome is `gatewayError`), the stored log after the call
equals the log before the call — nothing is appended or trimmed on the
failure path. -/
theorem c2_no_write_on_gateway_failure (connected : Bool) (log : List Json)
    (gw : List Content → GatewayResult) (p d : String)
    (h : (send_message_with_history connected log gw p).result = SendResult.gatewayError d) :
    (send_message_with_history connected log gw p).log = log := by
  cases connected with
  | false => rfl
  | true =>
    rcases send_total log gw p with ⟨_, heq⟩ | ⟨hist, _, ⟨d', _, heq⟩ | ⟨t, _, heq⟩⟩
    · rw [heq] at h; simp at h
    · rw [heq]
    · rw [heq] at h; simp at h

/-- Witness for C2 at a concrete failing gateway. -/
theorem c2_no_write_on_gateway_failure_witness :
    (send_message_with_history true [] (fun _ => GatewayResult.failure "quota") "oi").result
        = SendResult.gatewayError "quota"
    ∧ (send_message_with_history true [] (fun _ => GatewayResult.failure "quota") "oi").log
        = [] :=
  ⟨rfl, c2_no_write_on_gateway_failure true [] (fun _ => GatewayResult.failure "quota")
      "oi" "quota" rfl⟩

/-- Claim C3: for every list of messages each carrying a role and a single
text part, deserializing the serialization yields the list back —
`deserialize_content` after `serialize_content` is the identity,
preserving role, text and order. -/
theorem c3_roundtrip (ms : List Content)
    (h : ∀ c ∈ ms, ∃ t, c.parts = [{ text := some t }]) :
    deserialize_content (serialize_content ms) = some ms := by
  induction ms with
  | nil => rfl
  | cons c rest ih =>
    obtain ⟨t, ht⟩ := h c (List.mem_cons_self c rest)
    have hrest := ih (fun x hx => h x (List.mem_cons_of_mem c hx))
    simp only [serialize_content, List.map_cons] at hrest ⊢
    simp only [deserialize_content]
    rw [deserializeOne_serializeOne c t ht, hrest]

/-- Witness for C3 on a concrete two-message exchange. -/
theorem c3_roundtrip_witness :
    deserialize_content (serialize_content [userContent "oi", modelContent "tudo bem"])
      = some [userContent "oi", modelContent "tudo bem"] := by
  apply c3_roundtrip
  intro c hc
  simp only [List.mem_cons, List.not_mem_nil, or_false] at hc
  rcases hc with rfl | rfl
  · exact ⟨"oi", rfl⟩
  · exact ⟨"tudo bem", rfl⟩

/-- Claim C4: on a log already holding exactly `MAX_MESSAGES = 20`
entries, one successful `send_message_with_history` call leaves a log of
exactly 20 entries equal to the previous log with its two oldest entries
dropped followed by the serialized new exchange (user message then model
message); the remaining 18 prior entries keep their relative order. -/
theorem c4_oldest_drop (log : List Json) (gw : List Content → GatewayResult) (p t : String)
    (h20 : log.length = MAX_MESSAGES)
    (hok : (send_message_with_history true log gw p).result = SendResult.ok t) :
    (send_message_with_history true log gw p).log
        = log.drop 2 ++ serialize_content [userContent p, modelContent t]
      ∧ (send_message_with_history true log gw p).log.length = MAX_MESSAGES := by
  rcases send_total log gw p with ⟨_, heq⟩ | ⟨hist, _, ⟨d, _, heq⟩ | ⟨t', _, heq⟩⟩
  · rw [heq] at hok; simp at hok
  · rw [heq] at hok; simp at hok
  · rw [heq] at hok
    simp only [SendResult.ok.injEq] at hok
    subst hok
    rw [heq]
    have hsub : (log ++ serialize_content [userContent p, modelContent t']).length
        - MAX_MESSAGES = 2 := by
      simp [serialize_content, h20, MAX_MESSAGES]
    constructor
    · show ltrimLast MAX_MESSAGES _ = _
      rw [ltrimLast, hsub]
      exact List.drop_append_of_le_length (by rw [h20]; decide)
    · show (ltrimLast MAX_MESSAGES _).length = _
      rw [length_ltrimLast, hsub]
      simp [serialize_content, h20, MAX_MESSAGES]

/-- Witness for C4 on a concrete 20-entry log. -/
theorem c4_oldest_drop_witness :
    fullLog20.length = MAX_MESSAGES
    ∧ (send_message_with_history true fullLog20
          (fun _ => GatewayResult.success "claro") "oi").result = SendResult.ok "claro"
    ∧ (send_message_with_history true fullLog20
          (fun _ => GatewayResult.success "claro") "oi").log
        = fullLog20.drop 2 ++ serialize_content [userContent "oi", modelContent "claro"]
    ∧ (send_message_with_history true fullLog20
          (fun _ => GatewayResult.success "claro") "oi").log.length = MAX_MESSAGES := by
  have h := c4_oldest_drop fullLog20 (fun _ => GatewayResult.success "claro") "oi" "claro"
    (by decide) rfl
  exact ⟨by decide, rfl, h.1, h.2⟩

/-- Claim C5: with the store unreachable, `send_message_with_history`
returns the service-unavailable string at once with the gateway never
called and the store untouched, `reset_chat_session` returns `false`
without touching the store, and the history read returns the single
synthetic system-role entry instead of failing. -/
theorem c5_degraded_mode (log : List Json) (gw : List Content → GatewayResult) (p : String) :
    send_message_with_history false log gw p
        = { result := SendResult.degraded degradedMessage, log := log,
            gatewayCalled := false, submitted := none }
      ∧ reset_chat_session false log = (false, log)
      ∧ get_chat_history_from_redis false log
        = some [{ role := "system", text := "Erro: Redis não está conectado." }] :=
  ⟨rfl, rfl, rfl⟩

/-- Claim C6 counterexample: a stored history holding one well-formed
record followed by one malformed record makes the whole history read
fail (`none`, modelling the propagated exception) — the well-formed
record is not returned, so a malformed record is neither skipped nor
replaced; the history-fetch step of a send aborts too, before the
gateway is called. -/
theorem c6_counterexample :
    deserialize_content [serializeOne (userContent "oi"), Json.str "corrompido"] = none
    ∧ get_chat_history_from_redis true [serializeOne (userContent "oi"), Json.str "corrompido"]
        = none
    ∧ get_chat_history_from_redis true [serializeOne (userContent "oi"), Json.str "corrompido"]
        ≠ some [{ role := "user", text := "oi" }]
    ∧ (send_message_with_history true [serializeOne (userContent "oi"), Json.str "corrompido"]
        (fun _ => GatewayResult.success "ok") "e aí").result = SendResult.decodeError :=
  ⟨rfl, rfl, fun h => Option.noConfusion h, rfl⟩

/-- Claim C6 as amended: whenever the stored history holds a record the
decoder cannot parse, every history read aborts: `get_chat_history`
propagates the decode failure and returns no records at all, and
`send_message_with_history` fails before calling the gateway, leaving
the log untouched. -/
theorem c6_amended_malformed_aborts (log : List Json) (gw : List Content → GatewayResult)
    (p : String) (h : deserialize_content log = none) :
    get_chat_history_from_redis true log = none
    ∧ send_message_with_history true log gw p
        = { result := SendResult.decodeError, log := log,
            gatewayCalled := false, submitted := none } := by
  constructor
  · simp only [get_chat_history_from_redis, h]
  · simp only [send_message_with_history, h]

/-- Witness for the amended C6 at a concrete corrupted history. -/
theorem c6_amended_malformed_aborts_witness :
    deserialize_content [serializeOne (userContent "bom dia"), Json.num 3] = none
    ∧ get_chat_history_from_redis true [serializeOne (userContent "bom dia"), Json.num 3] = none
    ∧ (send_message_with_history true [serializeOne (userContent "bom dia"), Json.num 3]
        (fun _ => GatewayResult.success "ok") "oi").gatewayCalled = false := by
  have h := c6_amended_malformed_aborts [serializeOne (userContent "bom dia"), Json.num 3]
    (fun _ => GatewayResult.success "ok") "oi" rfl
  exact ⟨rfl, h.1, by rw [h.2]⟩

/-- Claim C7 counterexample: the decoder accepts a record whose role is
not among the recognized values (decoding succeeds on role `"banana"`,
where the claim requires failure), and it rejects a record whose part
lacks a `"text"` key (the claim requires absent text to decode to the
empty string, but the code raises `KeyError`). -/
theorem c7_counterexample :
    pyDeserializeOne (Json.obj [("role", Json.str "banana"),
        ("parts", Json.arr [Json.obj [("text", Json.str "x")]])])
      = some { role := some "banana", parts := [{ text := some "x" }] }
    ∧ pyDeserializeOne (Json.obj [("role", Json.str "user"),
        ("parts", Json.arr [Json.obj [("idioma", Json.str "pt")]])]) = none :=
  ⟨rfl, rfl⟩

/-- Claim C7 as amended: decoding a record succeeds exactly when the
record is a JSON object carrying both a `"role"` key whose value is a
string or `null` (pydantic `Content.role` is `Optional[str]`; the value
is never compared against the recognized set) and a `"parts"` key whose
value iterates to valid parts: an array of objects each carrying a
`"text"` key with a string-or-null value, or an empty string, or an
empty object (both iterate to zero parts). A `null` text decodes, and
later reads project it to the empty string; an absent `"text"` key is an
error. -/
theorem c7_decode_domain (j : Json) : (pyDeserializeOne j).isSome = PyWFRecord j := by
  cases j with
  | null => rfl
  | bool b => rfl
  | num n => rfl
  | str s => rfl
  | arr elems => rfl
  | obj fields =>
    simp only [pyDeserializeOne, PyWFRecord]
    cases hr : lookupField fields "role" with
    | none => rfl
    | some rj =>
      cases hp : lookupField fields "parts" with
      | none =>
        change false = (WFRole rj && false)
        simp
      | some pj =>
        change (match pyDecodeRole rj, pyDecodeParts pj with
          | some r, some parts => some ({ role := r, parts := parts } : PyContent)
          | _, _ => none).isSome = (WFRole rj && WFParts pj)
        have h1 := pyDecodeRole_isSome rj
        have h2 := pyDecodeParts_isSome pj
        cases hr2 : pyDecodeRole rj with
        | none =>
          rw [hr2] at h1
          simp [← h1]
        | some r =>
          rw [hr2] at h1
          cases hp2 : pyDecodeParts pj with
          | none =>
            rw [hp2] at h2
            simp [← h1, ← h2]
          | some parts =>
            rw [hp2] at h2
            simp [← h1, ← h2]

/-- Claim C8: whenever the history read over a reachable store returns a
sequence, no entry of that sequence has role `"system"`; and whenever a
send submits a message list to the gateway, no submitted entry has role
`"system"`. -/
theorem c8_role_filter (log : List Json) (hist : List FormattedMessage)
    (gw : List Content → GatewayResult) (p : String) (cs : List Content) :
    (get_chat_history_from_redis true log = some hist →
      hist.all (fun m => m.role != "system") = true)
    ∧ ((send_message_with_history true log gw p).submitted = some cs →
      cs.all (fun c => c.role != "system") = true) := by
  constructor
  · intro hget
    cases hdes : deserialize_content log with
    | none =>
      simp only [get_chat_history_from_redis, hdes] at hget
      exact Option.noConfusion hget
    | some history =>
      rw [get_history_shape log history hdes] at hget
      injection hget with hget
      subst hget
      rw [List.all_eq_true]
      intro m hm
      rw [List.mem_filterMap] at hm
      obtain ⟨c, hc, hmc⟩ := hm
      by_cases hrole : c.role = "system"
      · rw [if_pos hrole] at hmc; cases hmc
      · rw [if_neg hrole] at hmc
        injection hmc with hmc
        subst hmc
        simp [hrole]
  · intro hsub
    cases hdes : deserialize_content log with
    | none =>
      rcases send_total log gw p with ⟨_, heq⟩ | ⟨history, hdes', _⟩
      · rw [heq] at hsub; cases hsub
      · rw [hdes] at hdes'; cases hdes'
    | some history =>
      rw [submitted_shape log history hdes] at hsub
      injection hsub with hsub
      subst hsub
      exact payload_no_system history p

/-- Witness for C8 at a concrete one-entry history. -/
theorem c8_role_filter_witness :
    ([({ role := "user", text := "oi" } : FormattedMessage)].all
        (fun m => m.role != "system") = true)
    ∧ ([userContent "oi", userContent "tudo bem"].all
        (fun c => c.role != "system") = true) := by
  have h := c8_role_filter [serializeOne (userContent "oi")]
    [{ role := "user", text := "oi" }] (fun _ => GatewayResult.success "ok") "tudo bem"
    [userContent "oi", userContent "tudo bem"]
  exact ⟨h.1 rfl, h.2 rfl⟩

/-- Claim C9: the two read paths filter differently. A stored entry whose
role is none of `"user"`, `"model"`, `"system"` is included (projected to
role/text) in the sequence returned by the history read, but excluded
from the message list that a send submits to the gateway. -/
theorem c9_filter_asymmetry (log : List Json) (hist : List Content) (c : Content)
    (fh : List FormattedMessage) (cs : List Content)
    (gw : List Content → GatewayResult) (p : String)
    (hdes : deserialize_content log = some hist) (hmem : c ∈ hist)
    (hrole : c.role ∉ (["user", "model", "system"] : List String))
    (hget : get_chat_history_from_redis true log = some fh)
    (hsub : (send_message_with_history true log gw p).submitted = some cs) :
    ({ role := c.role, text := firstPartText c } : FormattedMessage) ∈ fh ∧ c ∉ cs := by
  simp only [List.mem_cons, List.not_mem_nil, or_false, not_or] at hrole
  obtain ⟨hu, hm, hs⟩ := hrole
  constructor
  · rw [get_history_shape log hist hdes] at hget
    injection hget with hget
    subst hget
    rw [List.mem_filterMap]
    exact ⟨c, hmem, by rw [if_neg hs]⟩
  · rw [submitted_shape log hist hdes] at hsub
    injection hsub with hsub
    subst hsub
    intro hin
    rcases List.mem_append.mp hin with hin | hin
    · rw [List.mem_filter] at hin
      obtain ⟨-, hcond⟩ := hin
      simp only [Bool.or_eq_true, beq_iff_eq] at hcond
      rcases hcond with h | h
      · exact hu h
      · exact hm h
    · rw [List.mem_singleton] at hin
      rw [hin] at hu
      exact hu rfl

/-- Witness for C9 at a concrete history holding one `"weird"`-role
entry: the history read returns it, the gateway submission omits it. -/
theorem c9_filter_asymmetry_witness :
    ({ role := "weird", text := "z" } : FormattedMessage)
        ∈ [({ role := "weird", text := "z" } : FormattedMessage)]
    ∧ weirdContent ∉ [userContent "oi"] := by
  have h := c9_filter_asymmetry [serializeOne weirdContent] [weirdContent] weirdContent
    [{ role := "weird", text := "z" }] [userContent "oi"]
    (fun _ => GatewayResult.success "ok") "oi"
    rfl (List.mem_singleton.mpr rfl) (by decide) rfl rfl
  exact h

/-- Claim C10: the degraded-mode failure string and the gateway's answer
travel through the same plain-string channel. A successful gateway
response whose text starts with `"Erro"` is appended to the store and
returned by `send_message_with_history`, yet the `POST /chat` handler
classifies any returned string starting with `"Erro"` as a failure and
responds 500 — exactly as it does for the degraded-mode string. -/
theorem c10_error_string_channel :
    (send_message_with_history true [] erroGateway "oi").result
        = SendResult.ok "Erro simulado pelo modelo."
    ∧ (send_message_with_history true [] erroGateway "oi").log
        = serialize_content [userContent "oi", modelContent "Erro simulado pelo modelo."]
    ∧ pyStartsWith "Erro simulado pelo modelo." "Erro" = true
    ∧ chat_with_gemini true true [] erroGateway "oi" "s1"
        = (HttpOutcome.httpError 500 "Erro simulado pelo modelo.",
            serialize_content [userContent "oi", modelContent "Erro simulado pelo modelo."])
    ∧ pyStartsWith degradedMessage "Erro" = true
    ∧ chat_with_gemini true false [] erroGateway "oi" "s1"
        = (HttpOutcome.httpError 500 degradedMessage, []) :=
  ⟨rfl, rfl, rfl, rfl, rfl, rfl⟩

end GeminiChat
